import Mathlib

/-!
Shallow embedding of the core of `utils.py` from the calibre-comicvine
plugin: the title parser (`normalised_title`), the candidate scorer
(`score_title`) and the ranking key generator (`keygen`).  External
collaborators — the calibre tokenizer (`query.get_title_tokens`) and the
optional Levenshtein similarity primitive — are modelled as parameters.
Machine strings are Lean `String`s (lists of characters); Python integers
are `ℤ`/`ℕ`.
-/

namespace Comicvine

/-- A dynamic Python value, as needed for the comparison
`metadata.series_index != issue_number` inside `score_title`: the left
side is a `str` and the right side an `int` (or `None`).  Python values
of different types are never `==`-equal. -/
inductive PyVal where
  | vint (n : ℤ)
  | vstr (s : String)
  | vnone
deriving DecidableEq

/-- Python `==` on the dynamic values above: equal only within one type. -/
def pyEq : PyVal → PyVal → Bool
  | .vint a, .vint b => a == b
  | .vstr a, .vstr b => a == b
  | .vnone, .vnone => true
  | _, _ => false

/-- The only part of `metadata.pubdate` the code reads is `.year`. -/
structure PubDate where
  year : ℤ
deriving DecidableEq

/-- The fields of a calibre `Metadata` record that `utils.py` reads. -/
structure Metadata where
  series : String
  series_index : String
  pubdate : Option PubDate := none
  authors : List String := []
  identifiers : List (String × String) := []
deriving DecidableEq

/-- Python `needle in hay` on lists of characters: contiguous sublist. -/
def listSub : List Char → List Char → Bool
  | n, [] => n.isEmpty
  | n, c :: t => List.isPrefixOf n (c :: t) || listSub n t

/-- Python substring test `needle in hay` on strings. -/
def pyIn (needle hay : String) : Bool := listSub needle.toList hay.toList

/-- Python dict lookup on the identifier mapping (`none` models a
`KeyError`); also models calibre's `Metadata.get_identifier`, which
returns `None` when the identifier is absent. -/
def assocLookup (l : List (String × String)) (k : String) : Option String :=
  match l.find? (fun p => p.1 == k) with
  | some p => some p.2
  | none => none

/-- Python `str.lower()` (ASCII, as in Python 2 on byte strings). -/
def pyLower (s : String) : String := String.mk (s.toList.map Char.toLower)

/-- `'%s #%s' % (metadata.series.lower(), metadata.series_index)` —
the local variable `volume` of `score_title`. -/
def volume (m : Metadata) : String := pyLower m.series ++ " #" ++ m.series_index

/-- Attempt of the regex `\((\d{4})\)` at one position: the `(` has been
consumed, the next five characters must be four digits and `)`. -/
def yearAt : List Char → Option ℤ
  | a :: b :: c :: d :: ')' :: _ =>
    if a.isDigit && b.isDigit && c.isDigit && d.isDigit then
      some (((a.toNat - 48) * 1000 + (b.toNat - 48) * 100
              + (c.toNat - 48) * 10 + (d.toNat - 48) : ℕ) : ℤ)
    else none
  | _ => none

/-- `re.search` for `\((\d{4})\)`: leftmost match wins, scanning one
position at a time. -/
def searchYear : List Char → Option ℤ
  | [] => none
  | c :: rest =>
    if c = '(' then
      match yearAt rest with
      | some y => some y
      | none => searchYear rest
    else searchYear rest

/-- `match_year.search(title)` in `score_title`, keeping the parsed year. -/
def match_year (title : String) : Option ℤ := searchYear title.toList

/-- Python `int()` applied to `100 * similarity`: truncation toward zero. -/
def pyTrunc (q : ℚ) : ℤ := if 0 ≤ q then ⌊q⌋ else ⌈q⌉

/-- The Levenshtein contribution computed inside the token loop of
`score_title`.  `sim = none` models the `NameError` path (the
`Levenshtein` module is unavailable), in which both statements of the
`try` block are skipped. -/
def simTerm (sim : Option (String → String → ℚ)) (vol title : String) : ℤ :=
  match sim with
  | some ratio => 100 - pyTrunc (100 * ratio vol title)
  | none => 0

/-- One iteration of the `for token in title_tokens` loop of
`score_title` (the four `score +=` statements of lines 131-142). -/
def score_token (sim : Option (String → String → ℚ)) (m : Metadata)
    (title : String) (issue_number : PyVal) (token : String) : ℤ :=
  (if pyIn token (volume m) then 0 else 10)
    + simTerm sim (volume m) title
    + (if pyEq (.vstr m.series_index) issue_number then 0 else 20)
    + (if pyIn m.series_index title then 0 else 10)

/-- `if year and metadata.pubdate: score += abs(metadata.pubdate.year - int(year.group(1)))`. -/
def year_term (m : Metadata) (title : String) : ℤ :=
  match match_year title, m.pubdate with
  | some y, some p => |p.year - y|
  | _, _ => 0

/-- `score += abs(len(volume) - len(title))`. -/
def len_term (m : Metadata) (title : String) : ℤ :=
  |((volume m).length : ℤ) - (title.length : ℤ)|

/-- `score_title(metadata, title, issue_number, title_tokens)` of
`utils.py`, with the availability of the Levenshtein module threaded
through as `sim`. -/
def score_title (sim : Option (String → String → ℚ)) (m : Metadata)
    (title : String) (issue_number : PyVal) (title_tokens : List String) : ℤ :=
  year_term m title + len_term m title
    + (title_tokens.map (score_token sim m title issue_number)).sum

/-- The identifier short-circuit of `keygen` (lines 155-160): Python
truthiness of the `identifiers` dict, `identifiers['comicvine']` with the
`KeyError` caught, and `metadata.get_identifier('comicvine') == ...`
where a `None` on the left never equals a string on the right. -/
def cvMatch (m : Metadata) (identifiers : Option (List (String × String))) : Bool :=
  match identifiers with
  | none => false
  | some l =>
    if l.isEmpty then false
    else
      match assocLookup l "comicvine" with
      | none => false
      | some v =>
        match assocLookup m.identifiers "comicvine" with
        | some w => w == v
        | none => false

/-- `keygen(metadata, title, authors, identifiers, **kwargs)` of
`utils.py`; the `kwargs` forwarded to `score_title` are `issue_number`
and `title_tokens`.  `if title:` is Python truthiness, so an empty
string also skips the title score. -/
def keygen (m : Metadata) (title : Option String) (authors : Option (List String))
    (identifiers : Option (List (String × String)))
    (sim : Option (String → String → ℚ)) (issue_number : PyVal)
    (title_tokens : List String) : ℤ :=
  if cvMatch m identifiers then 0
  else
    (match title with
     | some t => if t == "" then 0 else score_title sim m t issue_number title_tokens
     | none => 0)
    + (match authors with
       | some l => 10 * ((l.countP (fun a => !(m.authors.contains a)) : ℕ) : ℤ)
       | none => 0)

/-! ### The title parser `normalised_title` -/

/-- `token.startswith('#')`. -/
def startsHash (t : String) : Bool :=
  match t.toList with
  | '#' :: _ => true
  | _ => false

/-- `token.strip('#:')`: remove any leading and trailing characters drawn
from the set `{'#', ':'}`. -/
def stripHashColon (t : String) : String :=
  String.mk (((t.toList.dropWhile (fun c => c == '#' || c == ':')).reverse.dropWhile
      (fun c => c == '#' || c == ':')).reverse)

/-- Lines 93-94 of `utils.py`: the token is stripped of `#`/`:` only when
it starts with `#`. -/
def cleanToken (t : String) : String :=
  if startsHash t then stripHashColon t else t

/-- `token.isdigit()`: non-empty and every character an ASCII digit. -/
def isDigits (t : String) : Bool :=
  !t.toList.isEmpty && t.toList.all Char.isDigit

/-- `int(token)` on an all-digit token. -/
def digitsVal (t : String) : ℕ :=
  t.toList.foldl (fun n c => 10 * n + (c.toNat - 48)) 0

/-- Tail `#?\d+$` of the volume-marker regex `^(?i)(v|vol)#?\d+$`. -/
def volBody : List Char → Bool
  | [] => false
  | '#' :: rest => !rest.isEmpty && rest.all Char.isDigit
  | l => l.all Char.isDigit

/-- `volume.match(token)` for `volume = re.compile(r'^(?i)(v|vol)#?\d+$')`:
case-insensitive `v` or `vol`, optional `#`, one or more digits. -/
def volMatch (t : String) : Bool :=
  match t.toList with
  | c :: rest =>
    (c == 'v' || c == 'V') &&
      (volBody rest ||
        (match rest with
         | o :: l :: rest2 =>
           (o == 'o' || o == 'O') && (l == 'l' || l == 'L') && volBody rest2
         | _ => false))
  | [] => false

/-- The `for token in query.get_title_tokens(title)` loop of
`normalised_title` (lines 90-100), taking the tokenizer's output as
input and returning `(issue_number, title_tokens)`. -/
def tokenLoop : List String → Option ℕ × List String
  | [] => (none, [])
  | t :: rest =>
    if volMatch t then tokenLoop rest
    else
      let t' := cleanToken t
      if isDigits t' then (some (digitsVal t'), [])
      else
        let r := tokenLoop rest
        (r.1, pyLower t' :: r.2)

/-! ### The abbreviation pre-processing step of `normalised_title`

`abbrev = re.compile(r'(?i)((?:(?:\w).){3,})')` — note that the second
`.` of each group is the regex wildcard (it is not escaped), so a
"group" is any word character followed by any character other than a
newline.  `abbrev.sub(strip_abbrev, title)` replaces every maximal run
of at least three such groups by `strip_abbrev(match)`, and
`strip_abbrev` returns `match.string.replace('.', '')` — `match.string`
is the whole subject string, not the matched text. -/

/-- `\w` without `re.UNICODE`: ASCII letters, digits and underscore. -/
def isWordChar (c : Char) : Bool := c.isAlphanum || c == '_'

/-- Maximal number of leading `(?:\w).` groups (greedy matching of the
repetition; the wildcard does not match a newline). -/
def pairRun : List Char → ℕ
  | a :: b :: rest => if isWordChar a && !(b == '\n') then 1 + pairRun rest else 0
  | _ => 0

/-- `strip_abbrev(match)`, i.e. `match.string.replace('.', '')`: the
entire subject string with every period removed. -/
def strip_abbrev (s : String) : List Char := s.toList.filter (fun c => !(c == '.'))

/-- `re.sub` scanning: at each position try the pattern (at least three
greedy groups); on a match emit the replacement and resume after the
matched text, otherwise emit the character and advance by one.  The fuel
argument is always instantiated with the length of the list, which
suffices because every step consumes at least one character. -/
def subAux (repl : List Char) : ℕ → List Char → List Char
  | _, [] => []
  | 0, l => l
  | fuel + 1, c :: rest =>
    let k := pairRun (c :: rest)
    if 3 ≤ k then repl ++ subAux repl fuel ((c :: rest).drop (2 * k))
    else c :: subAux repl fuel rest

/-- `title = abbrev.sub(strip_abbrev, title)` (line 89 of `utils.py`). -/
def abbrev_sub (title : String) : String :=
  String.mk (subAux (strip_abbrev title) title.toList.length title.toList)

/-- `normalised_title(query, title)` with the tokenizer
`query.get_title_tokens` supplied as a parameter. -/
def normalised_title (tokenize : String → List String) (title : String) :
    Option ℕ × List String :=
  tokenLoop (tokenize (abbrev_sub title))

/-! ### Sample records used by concrete evaluations -/

/-- The candidate of the spec's worked example: series `Saga`,
`series_index = "3"` (calibre stores it as the string `str(issue_number)`),
published 2012. -/
def mSaga : Metadata :=
  { series := "Saga", series_index := "3", pubdate := some ⟨2012⟩ }

/-- A minimal candidate with no publication date. -/
def mPlain : Metadata := { series := "a", series_index := "1" }

/-- A candidate carrying a comicvine identifier. -/
def mId : Metadata :=
  { series := "Saga", series_index := "3",
    identifiers := [("comicvine", "42")] }

/-! ### Closed form of the scoring loop -/

/-- The token loop of `score_title` in closed form: the only
token-dependent contribution is the 10-point absent-from-volume penalty;
the similarity, issue-number-mismatch and issue-not-in-title terms are
the same for every token and are therefore multiplied by the number of
tokens. -/
theorem sum_score_token (sim : Option (String → String → ℚ)) (m : Metadata)
    (T : String) (iv : PyVal) (l : List String) :
    (l.map (score_token sim m T iv)).sum
      = 10 * ((l.countP (fun t => !(pyIn t (volume m))) : ℕ) : ℤ)
        + ((l.length : ℕ) : ℤ) * (simTerm sim (volume m) T
            + (if pyEq (.vstr m.series_index) iv then 0 else 20)
            + (if pyIn m.series_index T then 0 else 10)) := by
  induction l with
  | nil => simp
  | cons a t ih =>
    simp only [List.map_cons, List.sum_cons, List.countP_cons, List.length_cons, ih]
    cases hb : pyIn a (volume m) <;>
      simp only [score_token, hb, Bool.not_false, Bool.not_true, if_true, if_false,
        Bool.false_eq_true, Bool.true_eq_false, ite_true, ite_false] <;>
      push_cast <;> ring

/-- C10: with an empty `title_tokens` sequence the scorer's result is the
year term plus the length-difference term; none of the per-token
penalties nor the similarity term is ever applied. -/
theorem score_empty_tokens (sim : Option (String → String → ℚ)) (m : Metadata)
    (T : String) (iv : PyVal) :
    score_title sim m T iv [] = year_term m T + len_term m T := by
  simp [score_title]

/-- C2: `metadata.series_index != issue_number` compares a Python string
with a Python integer, and values of different types are never equal, so
the 20-point penalty fires even when the candidate's `series_index` is
`"3"` and the reference `issue_number` is the integer `3`: on the spec's
worked example (reference title `Saga #3 (2012)`, one title token,
matching year) the code yields 27 — the spurious 20, plus the
length-difference 7 — where the spec expects the mismatch term to
contribute 0. -/
theorem series_index_type_mismatch :
    (∀ (s : String) (n : ℤ), pyEq (PyVal.vstr s) (PyVal.vint n) = false)
    ∧ score_title none mSaga "Saga #3 (2012)" (PyVal.vint 3) ["saga"] = 27 := by
  constructor
  · intro s n; rfl
  · decide

/-- C6: the pre-processing step does not merely delete the periods of
abbreviation runs.  Its regex pairs a word character with the *wildcard*
(the period is unescaped), and its replacement function returns
`match.string` — the whole title — with every period removed, so on
`U.S.A. #1` the code produces `USA #1 #1`, not `USA #1`. -/
theorem abbrev_sub_eval :
    abbrev_sub "U.S.A. #1" = "USA #1 #1" ∧ abbrev_sub "U.S.A. #1" ≠ "USA #1" := by
  constructor
  · decide
  · decide

/-- C3, counterexample: the similarity contribution is
`100 - int(100 * similarity)` — truncation — not
`100 - round(100 * similarity)`.  With a similarity primitive returning
151/200 (so `100 * s = 75.5`), one token adds 25 where the claim's
rounding formula adds 24. -/
theorem similarity_round_cex :
    score_title (some (fun _ _ => (151 : ℚ)/200)) mPlain "b" PyVal.vnone ["x"]
      ≠ score_title none mPlain "b" PyVal.vnone ["x"]
        + (100 - round ((100 : ℚ) * (151/200))) := by
  have hq : (100 : ℚ) * (151/200) = 151/2 := by norm_num
  have htr : pyTrunc ((100 : ℚ) * (151/200)) = 75 := by
    rw [pyTrunc, if_pos (by norm_num), hq, Int.floor_eq_iff]
    norm_num
  have hrd : round ((100 : ℚ) * (151/200)) = 76 := by
    rw [hq, round_eq, Int.floor_eq_iff]
    norm_num
  have e1 : score_title (some (fun _ _ => (151 : ℚ)/200)) mPlain "b" PyVal.vnone ["x"]
      = score_title none mPlain "b" PyVal.vnone ["x"]
        + (100 - pyTrunc ((100 : ℚ) * (151/200))) := by
    rw [score_title, score_title, sum_score_token, sum_score_token, hq]
    simp only [simTerm, List.length_cons, List.length_nil]
    push_cast
    ring_nf
  intro heq
  rw [e1, htr, hrd] at heq
  omega

/-- C3, amended: when a similarity primitive is configured the scorer
adds `100 - trunc(100 * similarity(volumeLabel, reference.title))` once
per reference title token (`n` tokens add it `n` times); with no
primitive configured the whole term vanishes. -/
theorem similarity_term_per_token (f : String → String → ℚ) (m : Metadata)
    (T : String) (iv : PyVal) (l : List String) :
    score_title (some f) m T iv l
      = score_title none m T iv l
        + ((l.length : ℕ) : ℤ) * (100 - pyTrunc (100 * f (volume m) T)) := by
  unfold score_title
  rw [sum_score_token, sum_score_token]
  simp only [simTerm]
  ring_nf

/-- C7: all else fixed (same candidate, reference title, issue number,
similarity primitive, and the same number of title tokens), the scorer
is monotonically non-decreasing in the number of reference title tokens
that are not substrings of the candidate's volume label. -/
theorem score_monotone_absent (sim : Option (String → String → ℚ)) (m : Metadata)
    (T : String) (iv : PyVal) (l₁ l₂ : List String)
    (hlen : l₁.length = l₂.length)
    (habs : l₁.countP (fun t => !(pyIn t (volume m)))
              ≤ l₂.countP (fun t => !(pyIn t (volume m)))) :
    score_title sim m T iv l₁ ≤ score_title sim m T iv l₂ := by
  unfold score_title
  rw [sum_score_token, sum_score_token, hlen]
  have hc : ((l₁.countP (fun t => !(pyIn t (volume m))) : ℕ) : ℤ)
      ≤ ((l₂.countP (fun t => !(pyIn t (volume m))) : ℕ) : ℤ) := by
    exact_mod_cast habs
  linarith

/-- Witness for C7 at a concrete input: one token present in the volume
label versus one token absent from it. -/
theorem score_monotone_absent_w :
    score_title none mSaga "Saga" PyVal.vnone ["saga"]
      ≤ score_title none mSaga "Saga" PyVal.vnone ["zzzz"] :=
  score_monotone_absent none mSaga "Saga" PyVal.vnone ["saga"] ["zzzz"]
    (by decide) (by decide)

/-- C8: when the candidate has no `pubdate`, or the reference title
contains no parenthesised 4-digit year, the year term is skipped and the
scorer still returns the remaining sum; the embedding is a total
function, so absent optional fields never raise. -/
theorem score_year_skip (sim : Option (String → String → ℚ)) (m : Metadata)
    (T : String) (iv : PyVal) (l : List String)
    (h : m.pubdate = none ∨ match_year T = none) :
    score_title sim m T iv l
      = len_term m T + (l.map (score_token sim m T iv)).sum := by
  have hy : year_term m T = 0 := by
    rcases h with h | h
    · unfold year_term
      rw [h]
      cases match_year T <;> rfl
    · unfold year_term
      rw [h]
  unfold score_title
  rw [hy]
  omega

/-- Witness for C8 at a concrete input with no publication date. -/
theorem score_year_skip_w :
    score_title none mPlain "abc" PyVal.vnone ["t"]
      = len_term mPlain "abc"
        + (["t"].map (score_token none mPlain "abc" PyVal.vnone)).sum :=
  score_year_skip none mPlain "abc" PyVal.vnone ["t"] (Or.inl rfl)

/-! ### The ranking key generator `keygen` -/

/-- C1: whenever the reference query and the candidate both carry a
`comicvine` identifier and the two are equal, `keygen` returns exactly 0,
whatever the title, authors, similarity primitive, issue number and
title tokens are. -/
theorem keygen_id_match (m : Metadata) (title : Option String)
    (authors : Option (List String)) (ids : List (String × String)) (v : String)
    (sim : Option (String → String → ℚ)) (iv : PyVal) (toks : List String)
    (h₁ : assocLookup ids "comicvine" = some v)
    (h₂ : assocLookup m.identifiers "comicvine" = some v) :
    keygen m title authors (some ids) sim iv toks = 0 := by
  have hne : ids.isEmpty = false := by
    cases ids with
    | nil => simp [assocLookup] at h₁
    | cons a t => rfl
  have hm : cvMatch m (some ids) = true := by
    unfold cvMatch
    simp [hne, h₁, h₂]
  simp [keygen, hm]

/-- Witness for C1: mismatched title and authors, matching identifier. -/
theorem keygen_id_match_w :
    keygen mId (some "totally different") (some ["Nobody"])
      (some [("comicvine", "42")]) none PyVal.vnone [] = 0 :=
  keygen_id_match mId (some "totally different") (some ["Nobody"])
    [("comicvine", "42")] "42" none PyVal.vnone [] (by decide) (by decide)

/-- C9: with no title, no authors, and no matching comicvine identifier
(the mapping absent, or its `comicvine` lookup failing), `keygen` returns
0 for every candidate, so all candidates tie. -/
theorem keygen_trivial_zero (m : Metadata)
    (identifiers : Option (List (String × String)))
    (sim : Option (String → String → ℚ)) (iv : PyVal) (toks : List String)
    (_h : identifiers = none
        ∨ ∀ l, identifiers = some l → assocLookup l "comicvine" = none) :
    keygen m none none identifiers sim iv toks = 0 := by
  cases hc : cvMatch m identifiers <;> simp [keygen, hc]

/-- Witness for C9: identifiers absent. -/
theorem keygen_trivial_zero_w :
    keygen mSaga none none none none PyVal.vnone [] = 0 :=
  keygen_trivial_zero mSaga none none PyVal.vnone [] (Or.inl rfl)

/-! ### Properties of the token loop -/

/-- Step equation: a volume-marker token is skipped. -/
theorem tokenLoop_cons_vol (u : String) (rest : List String)
    (hv : volMatch u = true) : tokenLoop (u :: rest) = tokenLoop rest := by
  simp [tokenLoop, hv]

/-- Step equation: a non-marker token with an all-digit cleaned form ends
the loop with that issue number and no further tokens. -/
theorem tokenLoop_cons_digit (u : String) (rest : List String)
    (hv : volMatch u = false) (hd : isDigits (cleanToken u) = true) :
    tokenLoop (u :: rest) = (some (digitsVal (cleanToken u)), []) := by
  simp [tokenLoop, hv, hd]

/-- Step equation: any other token is appended, cleaned and
lower-cased, to the title tokens. -/
theorem tokenLoop_cons_word (u : String) (rest : List String)
    (hv : volMatch u = false) (hd : isDigits (cleanToken u) = false) :
    tokenLoop (u :: rest)
      = ((tokenLoop rest).1, pyLower (cleanToken u) :: (tokenLoop rest).2) := by
  simp [tokenLoop, hv, hd]

/-- A token whose cleaned form is all digits is never a volume marker:
a volume marker starts with `v`/`V`, which is neither `#` nor a digit. -/
theorem volMatch_eq_false_of_digits (t : String)
    (h : isDigits (cleanToken t) = true) : volMatch t = false := by
  rcases ht : t.data with _ | ⟨c, rest⟩
  · simp [volMatch, String.toList, ht]
  · cases hc : (c == 'v' || c == 'V')
    · simp [volMatch, String.toList, ht, hc]
    · exfalso
      have hcv : c = 'v' ∨ c = 'V' := by
        rcases Bool.or_eq_true_iff.mp hc with h1 | h1
        · exact Or.inl (eq_of_beq h1)
        · exact Or.inr (eq_of_beq h1)
      have hsh : startsHash t = false := by
        unfold startsHash
        simp only [String.toList]
        rw [ht]
        rcases hcv with rfl | rfl <;> rfl
      rw [cleanToken, hsh] at h
      simp only [Bool.false_eq_true, if_false, isDigits, String.toList, ht,
        List.isEmpty_cons, Bool.not_false, List.all_cons, Bool.true_and,
        Bool.and_eq_true] at h
      rcases hcv with rfl | rfl <;> exact absurd h.1 (by decide)

/-- The loop stops at the first token whose cleaned form is all digits:
that token becomes the issue number and everything after it is
discarded, while the tokens before it contribute exactly what they
would contribute on their own. -/
theorem tokenLoop_break (l₁ : List String) (t : String) (l₂ : List String)
    (h₁ : ∀ u ∈ l₁, isDigits (cleanToken u) = false)
    (h₂ : isDigits (cleanToken t) = true) :
    tokenLoop (l₁ ++ t :: l₂)
      = (some (digitsVal (cleanToken t)), (tokenLoop l₁).2) := by
  induction l₁ with
  | nil =>
    rw [List.nil_append,
      tokenLoop_cons_digit t l₂ (volMatch_eq_false_of_digits t h₂) h₂]
    rfl
  | cons u us ih =>
    have hu : isDigits (cleanToken u) = false := h₁ u (List.mem_cons_self u us)
    have ih' := ih (fun w hw => h₁ w (List.mem_cons_of_mem u hw))
    cases hvu : volMatch u
    · rw [List.cons_append, tokenLoop_cons_word u _ hvu hu, ih',
        tokenLoop_cons_word u us hvu hu]
    · rw [List.cons_append, tokenLoop_cons_vol u _ hvu, ih',
        tokenLoop_cons_vol u us hvu]

/-- When no token has an all-digit cleaned form, the loop returns no
issue number and keeps the lower-cased cleaned form of every token that
is not a volume marker. -/
theorem tokenLoop_keep (l : List String)
    (h : ∀ u ∈ l, isDigits (cleanToken u) = false) :
    (tokenLoop l).1 = none
    ∧ ∀ u ∈ l, volMatch u = false → pyLower (cleanToken u) ∈ (tokenLoop l).2 := by
  induction l with
  | nil => exact ⟨rfl, by intro u hu; cases hu⟩
  | cons u us ih =>
    have hu : isDigits (cleanToken u) = false := h u (List.mem_cons_self u us)
    obtain ⟨ih1, ih2⟩ := ih (fun w hw => h w (List.mem_cons_of_mem u hw))
    cases hvu : volMatch u
    · rw [tokenLoop_cons_word u us hvu hu]
      refine ⟨ih1, ?_⟩
      intro w hw _
      rcases List.mem_cons.mp hw with rfl | hw'
      · exact List.mem_cons_self _ _
      · exact List.mem_cons_of_mem _ (ih2 w hw' (by assumption))
    · rw [tokenLoop_cons_vol u us hvu]
      refine ⟨ih1, ?_⟩
      intro w hw hwv
      rcases List.mem_cons.mp hw with rfl | hw'
      · rw [hvu] at hwv
        cases hwv
      · exact ih2 w hw' hwv

/-- C4, counterexample to the claim as stated: with tokenizer output
`["#Batman:", "v2"]` no token has an all-digit cleaned form, yet neither
`"#batman:"` nor `"v2"` appears lower-cased in `title_tokens` — the
volume marker `v2` is discarded and the `#`-token is kept only in its
stripped form `batman`. -/
theorem missing_token_cex :
    (tokenLoop ["#Batman:", "v2"]).1 = none
    ∧ (tokenLoop ["#Batman:", "v2"]).2 = ["batman"]
    ∧ "#batman:" ∉ (tokenLoop ["#Batman:", "v2"]).2
    ∧ "v2" ∉ (tokenLoop ["#Batman:", "v2"]).2 := by
  decide

/-- C4, amended: the parser takes the first token whose cleaned form is
all digits as the issue number and discards every subsequent token (the
tokens before it contribute exactly their own `title_tokens`); and when
no token has an all-digit cleaned form, `issue_number` is absent and the
lower-cased cleaned form of every token except the volume markers
appears in `title_tokens`. -/
theorem issue_cut (l₁ : List String) (t : String) (l₂ l : List String)
    (h₁ : ∀ u ∈ l₁, isDigits (cleanToken u) = false)
    (h₂ : isDigits (cleanToken t) = true)
    (h₃ : ∀ u ∈ l, isDigits (cleanToken u) = false) :
    tokenLoop (l₁ ++ t :: l₂)
        = (some (digitsVal (cleanToken t)), (tokenLoop l₁).2)
    ∧ ((tokenLoop l).1 = none
        ∧ ∀ u ∈ l, volMatch u = false → pyLower (cleanToken u) ∈ (tokenLoop l).2) :=
  ⟨tokenLoop_break l₁ t l₂ h₁ h₂, tokenLoop_keep l h₃⟩

/-- Witness for C4 at a concrete input: `["saga", "3", "extra"]` parses
to issue 3 with the trailing token dropped. -/
theorem issue_cut_w :
    tokenLoop ["saga", "3", "extra"]
      = (some (digitsVal (cleanToken "3")), (tokenLoop ["saga"]).2) :=
  (issue_cut ["saga"] "3" ["extra"] ["batman"] (by decide) (by decide) (by decide)).1

/-- C5, counterexample to the claim as stated: the token `"3:"` does not
start with `#`, so it is never stripped; it fails `isdigit()` and is
kept as a title token instead of being parsed as issue number 3. -/
theorem colon_token_cex :
    (tokenLoop ["3:"]).1 = none ∧ (tokenLoop ["3:"]).2 = ["3:"] := by
  decide

/-- C5, amended: stripping of leading/trailing `#`/`:` happens only for
tokens that start with `#`.  For a non-volume-marker token whose
stripped form is all digits: if it starts with `#` it is parsed as the
issue number and the loop stops; if it does not (e.g. `"3:"`, `"12#"`)
and is not itself all digits, it is kept, unstripped, as a title
token. -/
theorem hash_strip (t : String) (rest : List String)
    (hv : volMatch t = false) (hd : isDigits (stripHashColon t) = true) :
    (startsHash t = true →
        tokenLoop (t :: rest) = (some (digitsVal (stripHashColon t)), []))
    ∧ (startsHash t = false → isDigits t = false →
        tokenLoop (t :: rest)
          = ((tokenLoop rest).1, pyLower t :: (tokenLoop rest).2)) := by
  constructor
  · intro hs
    have hct : cleanToken t = stripHashColon t := by
      rw [cleanToken, hs]
      rfl
    rw [tokenLoop_cons_digit t rest hv (by rw [hct]; exact hd), hct]
  · intro hs hdt
    have hct : cleanToken t = t := by
      rw [cleanToken, hs]
      rfl
    rw [tokenLoop_cons_word t rest hv (by rw [hct]; exact hdt), hct]

/-- Witness for C5 at the concrete token `"3:"`: kept as a title token. -/
theorem hash_strip_w :
    tokenLoop ["3:", "x"]
      = ((tokenLoop ["x"]).1, pyLower "3:" :: (tokenLoop ["x"]).2) :=
  (hash_strip "3:" ["x"] (by decide) (by decide)).2 (by decide) (by decide)

end Comicvine
